import Mathlib

/-!
Verification of the role-based access scoping policy and the lead conversion
workflow of a Django CRM application.

The embedding models the relational rows as Lean structures and the
queryset-filtering / conversion view code as pure functions over lists of
rows.  Machine-level concerns (primary keys, foreign keys) are modelled with
`Nat` identifiers; nullable columns with `Option`; Django `TextChoices`
columns with their stored `String` values.  `QuerySet.filter(Q(...))` becomes
`List.filter` with the corresponding boolean predicate; `QuerySet.none()`
becomes `[]`; `.distinct()` is the identity here because the embedded filters
never duplicate rows.  A `try/except` around the team/territory lookup is
modelled by a boolean oracle `lookupFails` saying whether the lookup raises.
-/

namespace Crm

/-- A sales territory (sales_territories/models.py, `Territory`): a named
grouping with an optional manager user. -/
structure Territory where
  id : Nat
  name : String
  manager : Option Nat
  deriving DecidableEq, Repr

/-- A user (users/models.py, `CustomUser`): carries a `role` string column
(choices ADMIN / MANAGER / SALES, but stored as a plain string) and an
optional membership territory. -/
structure CustomUser where
  pk : Nat
  role : String
  territory : Option Nat
  deriving DecidableEq, Repr

/-- Property `CustomUser.is_admin_role`. -/
def CustomUser.is_admin_role (u : CustomUser) : Bool := u.role == "ADMIN"

/-- Property `CustomUser.is_manager_role`. -/
def CustomUser.is_manager_role (u : CustomUser) : Bool := u.role == "MANAGER"

/-- Property `CustomUser.is_sales_role`. -/
def CustomUser.is_sales_role (u : CustomUser) : Bool := u.role == "SALES"

/-- The user/territory tables consulted by the scoping policy. -/
structure Db where
  users : List CustomUser
  territories : List Territory
  deriving Repr

/-- Embeds `user.managed_territories.all()`: territories whose `manager` foreign key
is this user (related name on `Territory.manager`). -/
def managedTerritories (db : Db) (userPk : Nat) : List Territory :=
  db.territories.filter (fun t => t.manager == some userPk)

/-- Embeds `CustomUser.objects.filter(territory__in=managed, role=SALES).exclude(pk=user.pk)`. -/
def teamMembers (db : Db) (userPk : Nat) : List CustomUser :=
  db.users.filter (fun u =>
    (managedTerritories db userPk).any (fun t => u.territory == some t.id) &&
    u.role == "SALES" && u.pk != userPk)

/-- Which territory signal a model carries, deciding the `hasattr` chain in
`_filter_queryset_by_role`: Account and Lead have a direct `territory`
column; Contact, Deal and Quote reach a territory through their `account`
foreign key. -/
inductive TerritorySignal where
  | direct
  | viaAccount
  deriving DecidableEq, Repr

/-- One ownable row, as seen by the scoping filters: `assigned_to` and
`created_by` user keys, the direct territory key (when the model has one),
the linked account key and the territory key of that account (when the model
links an account; `accountTerritory` denormalises `account.territory`), and
the `status` column (used by Lead filtering). -/
structure CrmRecord where
  pk : Nat
  assigned_to : Option Nat
  created_by : Option Nat
  territory : Option Nat
  account : Option Nat
  accountTerritory : Option Nat
  status : String
  deriving DecidableEq, Repr

/-- Embeds `Q(assigned_to=user) | Q(created_by=user)`. -/
def selfOwnedQ (user : CustomUser) (r : CrmRecord) : Bool :=
  r.assigned_to == some user.pk || r.created_by == some user.pk

/-- Embeds `Q(territory__in=managed_territories)` on an optional territory key: a
NULL territory matches nothing. -/
def territoryInManaged (managed : List Territory) (terr : Option Nat) : Bool :=
  match terr with
  | some t => managed.any (fun mt => mt.id == t)
  | none => false

/-- The `base_q` of the manager branch in `_filter_queryset_by_role`
(crm_entities/views.py lines 49-59, sales_pipeline/views.py lines 40-46):
self-owned or self-created, or owned/created by a team member, or — per the
territory signal of the model — territory (or account territory) among the
managed territories. -/
def managerBaseQ (db : Db) (sig : TerritorySignal) (user : CustomUser)
    (r : CrmRecord) : Bool :=
  let managed := managedTerritories db user.pk
  let team := teamMembers db user.pk
  r.assigned_to == some user.pk || r.created_by == some user.pk ||
  team.any (fun u => r.assigned_to == some u.pk) ||
  team.any (fun u => r.created_by == some u.pk) ||
  (match sig with
   | .direct => territoryInManaged managed r.territory
   | .viaAccount => territoryInManaged managed r.accountTerritory)

/-- Embeds `BaseCrmView._filter_queryset_by_role` (crm_entities/views.py lines
35-72) and the identical `BaseSalesPipelineView._filter_queryset_by_role`
(sales_pipeline/views.py lines 26-59): admin sees the queryset unchanged;
manager filters by `managerBaseQ`, degrading to `selfOwnedQ` when the
team/territory lookup raises; sales filters by `selfOwnedQ`; any other role
gets `queryset.none()`. -/
def filterQuerysetByRole (db : Db) (lookupFails : Bool) (sig : TerritorySignal)
    (user : CustomUser) (queryset : List CrmRecord) : List CrmRecord :=
  if user.is_admin_role then queryset
  else if user.is_manager_role then
    if lookupFails then queryset.filter (selfOwnedQ user)
    else queryset.filter (managerBaseQ db sig user)
  else if user.is_sales_role then queryset.filter (selfOwnedQ user)
  else []

/-- Embeds the `LeadListView.get_queryset` base:
`Lead.objects.exclude(status=Lead.StatusChoices.CONVERTED)`. -/
def leadListBase (leads : List CrmRecord) : List CrmRecord :=
  leads.filter (fun l => !(l.status == "CONVERTED"))

/-- Embeds `LeadListView.get_queryset` before the user-supplied filterset and
ordering: the CONVERTED exclusion applied first, then role scoping. -/
def leadListQueryset (db : Db) (lookupFails : Bool) (user : CustomUser)
    (leads : List CrmRecord) : List CrmRecord :=
  filterQuerysetByRole db lookupFails .direct user (leadListBase leads)

lemma mem_of_mem_filterQuerysetByRole {db : Db} {lookupFails : Bool}
    {sig : TerritorySignal} {user : CustomUser} {qs : List CrmRecord}
    {r : CrmRecord} (h : r ∈ filterQuerysetByRole db lookupFails sig user qs) :
    r ∈ qs := by
  unfold filterQuerysetByRole at h
  split at h
  · exact h
  · split at h
    · split at h
      · exact (List.mem_filter.mp h).1
      · exact (List.mem_filter.mp h).1
    · split at h
      · exact (List.mem_filter.mp h).1
      · exact absurd h (List.not_mem_nil r)

/-! Concrete sample rows used to instantiate the theorems below. -/

/-- A sample admin user. -/
def adminW : CustomUser := { pk := 1, role := "ADMIN", territory := none }

/-- A sample manager user managing territory 7. -/
def managerW : CustomUser := { pk := 2, role := "MANAGER", territory := none }

/-- A sample sales user in territory 7 (a team member of `managerW`). -/
def salesAW : CustomUser := { pk := 3, role := "SALES", territory := some 7 }

/-- A sample sales user outside territory 7. -/
def salesBW : CustomUser := { pk := 4, role := "SALES", territory := none }

/-- A sample user whose role string is not one of the three known roles. -/
def internW : CustomUser := { pk := 5, role := "INTERN", territory := none }

/-- The sample territory, managed by `managerW`. -/
def northW : Territory := { id := 7, name := "North", manager := some 2 }

/-- The sample user/territory tables. -/
def dbW : Db :=
  { users := [adminW, managerW, salesAW, salesBW, internW],
    territories := [northW] }

/-- A sample record assigned to `salesAW`, in territory 7. -/
def recAW : CrmRecord :=
  { pk := 100, assigned_to := some 3, created_by := some 3,
    territory := some 7, account := none, accountTerritory := none,
    status := "ACTIVE" }

/-- A sample record assigned to `salesBW`, with no territory. -/
def recBW : CrmRecord :=
  { pk := 101, assigned_to := some 4, created_by := none,
    territory := none, account := none, accountTerritory := none,
    status := "ACTIVE" }

/-- A sample lead-like record with status CONVERTED, assigned to `adminW`. -/
def recConvW : CrmRecord :=
  { pk := 102, assigned_to := some 1, created_by := some 1,
    territory := none, account := none, accountTerritory := none,
    status := "CONVERTED" }

/-- A sample lead-like record with status NEW, assigned to `adminW`. -/
def recNewW : CrmRecord :=
  { pk := 103, assigned_to := some 1, created_by := some 1,
    territory := none, account := none, accountTerritory := none,
    status := "NEW" }

/-- C2: for every user u with role SALES and every base record set, a record
is in the scoped result if and only if it is in the base set and its
assigned_to is u or its created_by is u; no record outside this predicate
appears. -/
theorem sales_scope_only_own (db : Db) (lookupFails : Bool)
    (sig : TerritorySignal) (u : CustomUser) (qs : List CrmRecord)
    (r : CrmRecord) (hs : u.role = "SALES") :
    r ∈ filterQuerysetByRole db lookupFails sig u qs ↔
      r ∈ qs ∧ (r.assigned_to = some u.pk ∨ r.created_by = some u.pk) := by
  simp [filterQuerysetByRole, CustomUser.is_admin_role,
    CustomUser.is_manager_role, CustomUser.is_sales_role, hs,
    List.mem_filter, selfOwnedQ]

/-- Witness for `sales_scope_only_own` at a concrete sales user and record. -/
theorem sales_scope_only_own_witness :
    salesAW.role = "SALES" ∧
    (recAW ∈ filterQuerysetByRole dbW false .direct salesAW [recAW, recBW] ↔
      recAW ∈ [recAW, recBW] ∧
        (recAW.assigned_to = some salesAW.pk ∨
         recAW.created_by = some salesAW.pk)) :=
  ⟨rfl, sales_scope_only_own dbW false .direct salesAW [recAW, recBW] recAW rfl⟩

lemma mem_managedTerritories {db : Db} {mpk : Nat} {t : Territory} :
    t ∈ managedTerritories db mpk ↔ t ∈ db.territories ∧ t.manager = some mpk := by
  simp [managedTerritories, List.mem_filter]

lemma mem_teamMembers {db : Db} {mpk : Nat} {u : CustomUser} :
    u ∈ teamMembers db mpk ↔
      u ∈ db.users ∧
        (∃ t, t ∈ db.territories ∧ t.manager = some mpk ∧
          u.territory = some t.id) ∧
        u.role = "SALES" ∧ u.pk ≠ mpk := by
  simp only [teamMembers, List.mem_filter, Bool.and_eq_true, List.any_eq_true,
    beq_iff_eq, bne_iff_ne]
  constructor
  · rintro ⟨hu, ⟨⟨t, ht, htt⟩, hrole⟩, hne⟩
    exact ⟨hu, ⟨t, mem_managedTerritories.mp ht |>.1,
      mem_managedTerritories.mp ht |>.2, htt⟩, hrole, hne⟩
  · rintro ⟨hu, ⟨t, ht, htm, htt⟩, hrole, hne⟩
    exact ⟨hu, ⟨⟨t, mem_managedTerritories.mpr ⟨ht, htm⟩, htt⟩, hrole⟩, hne⟩

lemma territoryInManaged_iff {db : Db} {mpk : Nat} {terr : Option Nat} :
    territoryInManaged (managedTerritories db mpk) terr = true ↔
      ∃ t, t ∈ db.territories ∧ t.manager = some mpk ∧ terr = some t.id := by
  cases terr with
  | none => simp [territoryInManaged]
  | some tv =>
    simp only [territoryInManaged, List.any_eq_true, beq_iff_eq,
      Option.some.injEq]
    constructor
    · rintro ⟨t, ht, hid⟩
      exact ⟨t, mem_managedTerritories.mp ht |>.1,
        mem_managedTerritories.mp ht |>.2, hid.symm⟩
    · rintro ⟨t, ht, htm, hid⟩
      exact ⟨t, mem_managedTerritories.mpr ⟨ht, htm⟩, hid.symm⟩

lemma managerBaseQ_iff {db : Db} {sig : TerritorySignal} {m : CustomUser}
    {r : CrmRecord} :
    managerBaseQ db sig m r = true ↔
      (r.assigned_to = some m.pk ∨ r.created_by = some m.pk ∨
       (∃ u, u ∈ db.users ∧ u.role = "SALES" ∧ u.pk ≠ m.pk ∧
          (∃ t, t ∈ db.territories ∧ t.manager = some m.pk ∧
            u.territory = some t.id) ∧
          (r.assigned_to = some u.pk ∨ r.created_by = some u.pk)) ∨
       (∃ t, t ∈ db.territories ∧ t.manager = some m.pk ∧
          (match sig with
           | .direct => r.territory = some t.id
           | .viaAccount => r.accountTerritory = some t.id))) := by
  simp only [managerBaseQ, Bool.or_eq_true, List.any_eq_true, beq_iff_eq]
  constructor
  · rintro ((((h1 | h2) | ⟨u, hu, ha⟩) | ⟨u, hu, hc⟩) | h5)
    · exact Or.inl h1
    · exact Or.inr (Or.inl h2)
    · obtain ⟨hu, hteam, hrole, hne⟩ := mem_teamMembers.mp hu
      exact Or.inr (Or.inr (Or.inl ⟨u, hu, hrole, hne, hteam, Or.inl ha⟩))
    · obtain ⟨hu, hteam, hrole, hne⟩ := mem_teamMembers.mp hu
      exact Or.inr (Or.inr (Or.inl ⟨u, hu, hrole, hne, hteam, Or.inr hc⟩))
    · refine Or.inr (Or.inr (Or.inr ?_))
      cases sig with
      | direct => exact territoryInManaged_iff.mp h5
      | viaAccount => exact territoryInManaged_iff.mp h5
  · rintro (h1 | h2 | ⟨u, hu, hrole, hne, hteam, howner⟩ | h4)
    · exact Or.inl (Or.inl (Or.inl (Or.inl h1)))
    · exact Or.inl (Or.inl (Or.inl (Or.inr h2)))
    · have humem : u ∈ teamMembers db m.pk :=
        mem_teamMembers.mpr ⟨hu, hteam, hrole, hne⟩
      rcases howner with ha | hc
      · exact Or.inl (Or.inl (Or.inr ⟨u, humem, ha⟩))
      · exact Or.inl (Or.inr ⟨u, humem, hc⟩)
    · refine Or.inr ?_
      cases sig with
      | direct => exact territoryInManaged_iff.mpr h4
      | viaAccount => exact territoryInManaged_iff.mpr h4

/-- C1: for every manager m and base record set, the scoped result contains
exactly the records of the base set that are assigned to or created by m, or
assigned to / created by a SALES-role user other than m whose territory is
one of the territories m manages, or — per the territory
signal of the record type, direct or via the linked Account — whose territory is one of the
territories m manages. -/
theorem manager_scope_union (db : Db) (sig : TerritorySignal)
    (m : CustomUser) (qs : List CrmRecord) (r : CrmRecord)
    (hm : m.role = "MANAGER") :
    r ∈ filterQuerysetByRole db false sig m qs ↔
      r ∈ qs ∧
        (r.assigned_to = some m.pk ∨ r.created_by = some m.pk ∨
         (∃ u, u ∈ db.users ∧ u.role = "SALES" ∧ u.pk ≠ m.pk ∧
            (∃ t, t ∈ db.territories ∧ t.manager = some m.pk ∧
              u.territory = some t.id) ∧
            (r.assigned_to = some u.pk ∨ r.created_by = some u.pk)) ∨
         (∃ t, t ∈ db.territories ∧ t.manager = some m.pk ∧
            (match sig with
             | .direct => r.territory = some t.id
             | .viaAccount => r.accountTerritory = some t.id))) := by
  rw [filterQuerysetByRole]
  rw [if_neg (by simp [CustomUser.is_admin_role, hm])]
  rw [if_pos (by simp [CustomUser.is_manager_role, hm])]
  rw [if_neg (by simp)]
  rw [List.mem_filter]
  exact and_congr_right fun _ => managerBaseQ_iff

/-- Witness for `manager_scope_union`: a manager sees a record owned by a
team member in a managed territory. -/
theorem manager_scope_union_witness :
    managerW.role = "MANAGER" ∧
    (recAW ∈ filterQuerysetByRole dbW false .direct managerW [recAW, recBW] ↔
      recAW ∈ [recAW, recBW] ∧
        (recAW.assigned_to = some managerW.pk ∨
         recAW.created_by = some managerW.pk ∨
         (∃ u, u ∈ dbW.users ∧ u.role = "SALES" ∧ u.pk ≠ managerW.pk ∧
            (∃ t, t ∈ dbW.territories ∧ t.manager = some managerW.pk ∧
              u.territory = some t.id) ∧
            (recAW.assigned_to = some u.pk ∨ recAW.created_by = some u.pk)) ∨
         (∃ t, t ∈ dbW.territories ∧ t.manager = some managerW.pk ∧
            (match TerritorySignal.direct with
             | .direct => recAW.territory = some t.id
             | .viaAccount => recAW.accountTerritory = some t.id)))) :=
  ⟨rfl, manager_scope_union dbW .direct managerW [recAW, recBW] recAW rfl⟩

/-- C7: the scoping function is total (it never propagates the lookup
exception); when the manager-branch team/territory lookup fails it returns
exactly the self-owned-or-created filter of the base set — never the full
set and never an empty-by-exception result — and for any role other than
ADMIN, MANAGER, SALES it returns the empty set. -/
theorem scope_fail_closed (db : Db) (lookupFails : Bool)
    (sig : TerritorySignal) (u : CustomUser) (qs : List CrmRecord) :
    (u.role = "MANAGER" →
      filterQuerysetByRole db true sig u qs = qs.filter (selfOwnedQ u)) ∧
    (u.role ≠ "ADMIN" → u.role ≠ "MANAGER" → u.role ≠ "SALES" →
      filterQuerysetByRole db lookupFails sig u qs = []) := by
  constructor
  · intro hm
    rw [filterQuerysetByRole]
    rw [if_neg (by simp [CustomUser.is_admin_role, hm])]
    rw [if_pos (by simp [CustomUser.is_manager_role, hm])]
    rw [if_pos rfl]
  · intro hna hnm hns
    rw [filterQuerysetByRole]
    rw [if_neg (by simp [CustomUser.is_admin_role, hna])]
    rw [if_neg (by simp [CustomUser.is_manager_role, hnm])]
    rw [if_neg (by simp [CustomUser.is_sales_role, hns])]

/-- Witness for `scope_fail_closed`: on a failing lookup a concrete manager
degrades to self-only visibility, and a concrete unknown-role user gets the
empty set. -/
theorem scope_fail_closed_witness :
    filterQuerysetByRole dbW true .direct managerW [recAW, recBW] =
      List.filter (selfOwnedQ managerW) [recAW, recBW] ∧
    filterQuerysetByRole dbW false .direct internW [recAW, recBW] = [] :=
  ⟨(scope_fail_closed dbW true .direct managerW [recAW, recBW]).1 rfl,
   (scope_fail_closed dbW false .direct internW [recAW, recBW]).2
     (by decide) (by decide) (by decide)⟩

/-- C9: for every user of any role (the admin branch included, since the
CONVERTED exclusion is applied to the base set before role scoping), the
default Lead list view never contains a Lead with status CONVERTED. -/
theorem lead_list_never_converted (db : Db) (lookupFails : Bool)
    (user : CustomUser) (leads : List CrmRecord) (r : CrmRecord)
    (h : r ∈ leadListQueryset db lookupFails user leads) :
    r.status ≠ "CONVERTED" := by
  have hbase : r ∈ leadListBase leads := mem_of_mem_filterQuerysetByRole h
  have := (List.mem_filter.mp hbase).2
  simpa using this

/-- Witness for `lead_list_never_converted`: the default Lead list of an admin
over a base containing a CONVERTED lead still satisfies the exclusion for
the lead it does show. -/
theorem lead_list_never_converted_witness :
    recNewW ∈ leadListQueryset dbW false adminW [recNewW, recConvW] ∧
    recNewW.status ≠ "CONVERTED" :=
  ⟨by decide,
   lead_list_never_converted dbW false adminW [recNewW, recConvW] recNewW
     (by decide)⟩

/-! ## Lead conversion workflow (crm_entities/views.py, `LeadConvertView.post`) -/

/-- A Lead row (crm_entities/models.py, `Lead`), with the columns the
conversion reads.  Text columns are `String` (Django stores blanks as the
empty string), nullable foreign keys are `Option Nat`. -/
structure Lead where
  pk : Nat
  first_name : String
  last_name : String
  company_name : String
  title : String
  department : String
  email : String
  work_phone : String
  mobile_phone_1 : String
  mobile_phone_2 : String
  address : String
  notes : String
  status : String
  source : String
  territory : Option Nat
  assigned_to : Option Nat
  created_by : Option Nat
  deriving DecidableEq, Repr

/-- An Account row (crm_entities/models.py, `Account`), with the columns the
conversion writes.  `name` is globally unique in the schema. -/
structure Account where
  pk : Nat
  name : String
  phone_number : String
  billing_address : String
  territory : Option Nat
  assigned_to : Option Nat
  created_by : Option Nat
  deriving DecidableEq, Repr

/-- A Contact row (crm_entities/models.py, `Contact`), with the columns the
conversion writes. -/
structure Contact where
  pk : Nat
  first_name : String
  last_name : String
  account : Option Nat
  title : String
  department : String
  email : String
  work_phone : String
  mobile_phone_1 : String
  mobile_phone_2 : String
  notes : String
  assigned_to : Option Nat
  created_by : Option Nat
  deriving DecidableEq, Repr

/-- A Deal row (sales_pipeline/models.py, `Deal`), with the columns the
conversion writes.  `amount` is a decimal in the source; the conversion only
ever writes 0.00, modelled as `0`.  `close_date` is a day number. -/
structure Deal where
  pk : Nat
  name : String
  account : Nat
  primary_contact : Option Nat
  stage : String
  amount : Nat
  currency : String
  close_date : Nat
  description : String
  assigned_to : Option Nat
  created_by : Option Nat
  deriving DecidableEq, Repr

/-- Embeds `Lead.full_name`: the first and last name joined by a space and
stripped, falling back to the last name when that is empty. -/
def Lead.full_name (l : Lead) : String :=
  let s := (l.first_name ++ " " ++ l.last_name).trim
  if s == "" then l.last_name else s

/-- The apostrophe character, kept out of string literals. -/
def apos : String := String.singleton (Char.ofNat 39)

/-- The Account name the conversion derives:
`lead.company_name` when non-empty, else the fallback of full name plus
apostrophe-s Company (from Lead) — the
company name when non-empty (Python truthiness), else the fallback. -/
def Lead.derivedAccountName (l : Lead) : String :=
  if l.company_name == "" then
    l.full_name ++ apos ++ "s Company (from Lead)"
  else l.company_name

/-- The full database state the conversion reads and writes.  `nextPk` is
the next fresh primary key the store will hand out. -/
structure ConvState where
  users : List CustomUser
  territories : List Territory
  accounts : List Account
  contacts : List Contact
  deals : List Deal
  leads : List Lead
  nextPk : Nat
  deriving DecidableEq, Repr

/-- The user/territory tables of a conversion state, as consulted by the
permission check. -/
def ConvState.db (st : ConvState) : Db :=
  { users := st.users, territories := st.territories }

/-- A lead viewed as an ownable record with a direct territory signal (a
Lead has its own `territory` column and no account link). -/
def Lead.asRecord (l : Lead) : CrmRecord :=
  { pk := l.pk,
    assigned_to := l.assigned_to,
    created_by := l.created_by,
    territory := l.territory,
    account := none,
    accountTerritory := none,
    status := l.status }

/-- The inline permission check of `LeadConvertView.post` (crm_entities/
views.py lines 478-503).  The view re-inlines, on the single lead, exactly
the role predicates of `_filter_queryset_by_role`: admin always passes; a
manager passes on `lead.assigned_to == user or lead.created_by == user or
lead.assigned_to in team_members or lead.created_by in team_members or
(lead.territory and lead.territory in managed_territories)` — which is
`managerBaseQ` at the lead with the direct territory signal — degrading on
a lookup exception to the self-owned/created test; a sales user passes only
on the self-owned/created test; any other role leaves `has_permission`
False. -/
def convertPermission (st : ConvState) (lookupFails : Bool)
    (user : CustomUser) (lead : Lead) : Bool :=
  if user.is_admin_role then true
  else if user.is_manager_role then
    if lookupFails then selfOwnedQ user lead.asRecord
    else managerBaseQ st.db .direct user lead.asRecord
  else if user.is_sales_role then selfOwnedQ user lead.asRecord
  else false

/-- The outcome of a conversion attempt, with the identifier the response
redirects to: every failure redirects to the detail view of the lead itself (except
`notFound`, which redirects to the lead list), and success redirects to the
detail view of the new Account. -/
inductive ConvertOutcome where
  | notFound
  | forbidden (leadPk : Nat)
  | alreadyConverted (leadPk : Nat)
  | lostLead (leadPk : Nat)
  | mustQualify (leadPk : Nat)
  | nameCollision (leadPk : Nat)
  | success (accountPk : Nat)
  deriving DecidableEq, Repr

/-- The Account row the conversion creates from a lead (crm_entities/
views.py lines 535-542). -/
def convertedAccount (lead : Lead) (user : CustomUser) (pk : Nat) : Account :=
  { pk := pk,
    name := lead.derivedAccountName,
    phone_number := lead.work_phone,
    billing_address := lead.address,
    created_by := some user.pk,
    assigned_to := some (lead.assigned_to.getD user.pk),
    territory := lead.territory }

/-- The Contact row the conversion creates from a lead (crm_entities/
views.py lines 546-561), linked to the new Account and carrying a
provenance note prepended to the notes of the lead. -/
def convertedContact (lead : Lead) (user : CustomUser) (accountPk pk : Nat) :
    Contact :=
  { pk := pk,
    first_name := lead.first_name,
    last_name := lead.last_name,
    account := some accountPk,
    title := lead.title,
    department := lead.department,
    email := lead.email,
    work_phone := lead.work_phone,
    mobile_phone_1 := lead.mobile_phone_1,
    mobile_phone_2 := lead.mobile_phone_2,
    created_by := some user.pk,
    assigned_to := some (lead.assigned_to.getD user.pk),
    notes := "Converted from Lead: " ++ lead.full_name ++ "\n" ++ lead.notes }

/-- The Deal row the conversion creates (crm_entities/views.py lines
565-580): stage QUALIFICATION, amount 0, close date 30 days from today,
linked to the new Account and Contact. -/
def convertedDeal (lead : Lead) (user : CustomUser)
    (accountPk contactPk pk today : Nat) : Deal :=
  { pk := pk,
    name := lead.derivedAccountName ++ " - Opportunity from Lead " ++
      lead.last_name,
    account := accountPk,
    primary_contact := some contactPk,
    stage := "QUALIFICATION",
    amount := 0,
    currency := "PHP",
    close_date := today + 30,
    created_by := some user.pk,
    assigned_to := some (lead.assigned_to.getD user.pk),
    description := "Created from converted Lead: " ++ lead.full_name ++
      "\n" ++ "Amount needs review.\n" ++ lead.notes }

/-- Embeds `LeadConvertView.post` (crm_entities/views.py lines 468-598): look up
the lead; check permission; check the status gates in order (CONVERTED,
LOST, not QUALIFIED); then, inside one atomic transaction, derive the
Account name, abort on a name collision (the raised ValueError rolls the
transaction back, so the state is returned unchanged), otherwise create the
Account, the Contact and the Deal and set the status of the lead to CONVERTED.
Returns the outcome and the post-request state. -/
def leadConvert (st : ConvState) (lookupFails : Bool) (user : CustomUser)
    (leadPk : Nat) (today : Nat) : ConvertOutcome × ConvState :=
  match st.leads.find? (fun l => l.pk == leadPk) with
  | none => (.notFound, st)
  | some lead =>
    if !(convertPermission st lookupFails user lead) then
      (.forbidden lead.pk, st)
    else if lead.status == "CONVERTED" then (.alreadyConverted lead.pk, st)
    else if lead.status == "LOST" then (.lostLead lead.pk, st)
    else if lead.status != "QUALIFIED" then (.mustQualify lead.pk, st)
    else if st.accounts.any (fun a => a.name == lead.derivedAccountName) then
      (.nameCollision lead.pk, st)
    else
      let account := convertedAccount lead user st.nextPk
      let contact := convertedContact lead user account.pk (st.nextPk + 1)
      let deal := convertedDeal lead user account.pk contact.pk
        (st.nextPk + 2) today
      (.success account.pk,
        { st with
            accounts := st.accounts ++ [account],
            contacts := st.contacts ++ [contact],
            deals := st.deals ++ [deal],
            leads := st.leads.map (fun l =>
              if l.pk == lead.pk then { l with status := "CONVERTED" } else l),
            nextPk := st.nextPk + 3 })

/-! Concrete conversion fixtures. -/

/-- A QUALIFIED sample lead (pk 50) assigned to and created by `salesAW`
(the SALES user in territory 7), in territory 7, matching the concrete
permission-gate scenario. -/
def leadQW : Lead :=
  { pk := 50, first_name := "Alice", last_name := "Reyes",
    company_name := "Acme", title := "CEO", department := "HQ",
    email := "a@acme.test", work_phone := "123", mobile_phone_1 := "",
    mobile_phone_2 := "", address := "1 Main St", notes := "hot lead",
    status := "QUALIFIED", source := "REFERRAL", territory := some 7,
    assigned_to := some 3, created_by := some 3 }

/-- A NEW sample lead (pk 53) assigned to `adminW`. -/
def leadNewW : Lead :=
  { leadQW with pk := 53, status := "NEW", assigned_to := some 1,
                created_by := some 1 }

/-- The sample conversion state: the users and territory of `dbW`, no
accounts/contacts/deals yet, the QUALIFIED and NEW sample leads, next
fresh primary key 200. -/
def stW : ConvState :=
  { users := [adminW, managerW, salesAW, salesBW, internW],
    territories := [northW],
    accounts := [], contacts := [], deals := [],
    leads := [leadQW, leadNewW], nextPk := 200 }

/-- C3: for every conversion attempt on an existing lead by a user who
passes the permission check, a CONVERTED lead reports already-converted, a
LOST lead reports that a lost lead cannot be converted, a NEW or CONTACTED
lead reports it must be qualified first — in each case with the state
returned unchanged (no Account, Contact or Deal created, lead untouched) —
and whenever the status is not QUALIFIED the state is unchanged, so only a
QUALIFIED lead reaches the conversion effects. -/
theorem conversion_status_gate (st : ConvState) (lookupFails : Bool)
    (user : CustomUser) (leadPk today : Nat) (lead : Lead)
    (hfind : st.leads.find? (fun l => l.pk == leadPk) = some lead)
    (hperm : convertPermission st lookupFails user lead = true) :
    (lead.status = "CONVERTED" →
      leadConvert st lookupFails user leadPk today =
        (.alreadyConverted lead.pk, st)) ∧
    (lead.status = "LOST" →
      leadConvert st lookupFails user leadPk today = (.lostLead lead.pk, st)) ∧
    ((lead.status = "NEW" ∨ lead.status = "CONTACTED") →
      leadConvert st lookupFails user leadPk today =
        (.mustQualify lead.pk, st)) ∧
    (lead.status ≠ "QUALIFIED" →
      (leadConvert st lookupFails user leadPk today).2 = st) := by
  refine ⟨?_, ?_, ?_, ?_⟩
  · intro h
    rw [leadConvert, hfind]
    simp [hperm, h]
  · intro h
    rw [leadConvert, hfind]
    simp [hperm, h]
  · rintro (h | h) <;>
      · rw [leadConvert, hfind]
        simp [hperm, h]
  · intro h
    rw [leadConvert, hfind]
    by_cases hc : lead.status = "CONVERTED"
    · simp [hperm, hc]
    · by_cases hl : lead.status = "LOST"
      · simp [hperm, hc, hl]
      · simp [hperm, hc, hl, h]

/-- Witness for `conversion_status_gate`: the admin attempts to convert the
concrete NEW lead and is told it must be qualified first, with the state
unchanged. -/
theorem conversion_status_gate_witness :
    stW.leads.find? (fun l => l.pk == 53) = some leadNewW ∧
    convertPermission stW false adminW leadNewW = true ∧
    leadConvert stW false adminW 53 1000 = (.mustQualify leadNewW.pk, stW) :=
  ⟨by decide, by decide,
   (conversion_status_gate stW false adminW 53 1000 leadNewW (by decide)
     (by decide)).2.2.1 (Or.inl rfl)⟩

/-- C4: converting a QUALIFIED lead L as acting user U (permission granted,
no name collision) creates exactly one Account — name the derived account
name (company name or the fallback), phone and billing address copied from
L, assignee the assignee of L or else U, territory copied from L, creator U — exactly
one Contact linked to that Account with the personal fields of L copied and a
provenance note prepended to the notes of L, and exactly one Deal linked to the
Account and Contact with stage QUALIFICATION, amount 0, close date 30 days
out and assignee the assignee of L or else U; the status of L becomes
CONVERTED; and the
outcome identifies the new Account. -/
theorem conversion_success_effects (st : ConvState) (lookupFails : Bool)
    (user : CustomUser) (leadPk today : Nat) (lead : Lead)
    (hfind : st.leads.find? (fun l => l.pk == leadPk) = some lead)
    (hperm : convertPermission st lookupFails user lead = true)
    (hq : lead.status = "QUALIFIED")
    (hcol : ∀ a ∈ st.accounts, a.name ≠ lead.derivedAccountName) :
    leadConvert st lookupFails user leadPk today =
      (.success st.nextPk,
        { st with
            accounts := st.accounts ++
              [{ pk := st.nextPk,
                 name := lead.derivedAccountName,
                 phone_number := lead.work_phone,
                 billing_address := lead.address,
                 territory := lead.territory,
                 assigned_to := some (lead.assigned_to.getD user.pk),
                 created_by := some user.pk }],
            contacts := st.contacts ++
              [{ pk := st.nextPk + 1,
                 first_name := lead.first_name,
                 last_name := lead.last_name,
                 account := some st.nextPk,
                 title := lead.title,
                 department := lead.department,
                 email := lead.email,
                 work_phone := lead.work_phone,
                 mobile_phone_1 := lead.mobile_phone_1,
                 mobile_phone_2 := lead.mobile_phone_2,
                 notes := "Converted from Lead: " ++ lead.full_name ++
                   "\n" ++ lead.notes,
                 assigned_to := some (lead.assigned_to.getD user.pk),
                 created_by := some user.pk }],
            deals := st.deals ++
              [{ pk := st.nextPk + 2,
                 name := lead.derivedAccountName ++
                   " - Opportunity from Lead " ++ lead.last_name,
                 account := st.nextPk,
                 primary_contact := some (st.nextPk + 1),
                 stage := "QUALIFICATION",
                 amount := 0,
                 currency := "PHP",
                 close_date := today + 30,
                 description := "Created from converted Lead: " ++
                   lead.full_name ++ "\n" ++ "Amount needs review.\n" ++
                   lead.notes,
                 assigned_to := some (lead.assigned_to.getD user.pk),
                 created_by := some user.pk }],
            leads := st.leads.map (fun l =>
              if l.pk == lead.pk then { l with status := "CONVERTED" }
              else l),
            nextPk := st.nextPk + 3 }) := by
  have hany : st.accounts.any
      (fun a => a.name == lead.derivedAccountName) = false := by
    rw [List.any_eq_false]
    intro a ha
    simpa using hcol a ha
  rw [leadConvert, hfind]
  simp [hperm, hq, hany, convertedAccount, convertedContact, convertedDeal]

/-- Witness for `conversion_success_effects`: the manager of territory 7
converts the concrete QUALIFIED lead. -/
theorem conversion_success_effects_witness :
    stW.leads.find? (fun l => l.pk == 50) = some leadQW ∧
    convertPermission stW false managerW leadQW = true ∧
    leadQW.status = "QUALIFIED" ∧
    (leadConvert stW false managerW 50 1000).1 = .success stW.nextPk :=
  ⟨by decide, by decide, rfl, by
    rw [conversion_success_effects stW false managerW 50 1000 leadQW
      (by decide) (by decide) rfl (by intro a ha; cases ha)]⟩

/-- C5: a conversion attempt on a QUALIFIED lead whose derived Account name
collides with the name of an existing Account reports the collision and returns
the state unchanged — no Account, Contact or Deal row persists and the
status of the lead is untouched (full rollback). -/
theorem conversion_collision_rollback (st : ConvState) (lookupFails : Bool)
    (user : CustomUser) (leadPk today : Nat) (lead : Lead)
    (hfind : st.leads.find? (fun l => l.pk == leadPk) = some lead)
    (hperm : convertPermission st lookupFails user lead = true)
    (hq : lead.status = "QUALIFIED")
    (hcol : ∃ a, a ∈ st.accounts ∧ a.name = lead.derivedAccountName) :
    leadConvert st lookupFails user leadPk today =
      (.nameCollision lead.pk, st) := by
  have hany : st.accounts.any
      (fun a => a.name == lead.derivedAccountName) = true := by
    rw [List.any_eq_true]
    obtain ⟨a, ha, hname⟩ := hcol
    exact ⟨a, ha, by simpa using hname⟩
  rw [leadConvert, hfind]
  simp [hperm, hq, hany]

/-- An account whose name collides with the derived name of `leadQW`. -/
def accAcmeW : Account :=
  { pk := 150, name := "Acme", phone_number := "", billing_address := "",
    territory := none, assigned_to := some 3, created_by := some 3 }

/-- The sample conversion state with the colliding account present. -/
def stColW : ConvState := { stW with accounts := [accAcmeW] }

/-- Witness for `conversion_collision_rollback`: converting the concrete
QUALIFIED lead while an Account named Acme exists reports the collision and
leaves the state unchanged. -/
theorem conversion_collision_rollback_witness :
    stColW.leads.find? (fun l => l.pk == 50) = some leadQW ∧
    convertPermission stColW false managerW leadQW = true ∧
    leadConvert stColW false managerW 50 1000 =
      (.nameCollision leadQW.pk, stColW) :=
  ⟨by decide, by decide,
   conversion_collision_rollback stColW false managerW 50 1000 leadQW
     (by decide) (by decide) rfl ⟨accAcmeW, by decide, by decide⟩⟩

/-- C6: the conversion proceeds only if the acting user passes the scoping
ownership test of the scoping policy for the lead — admin: always; sales: lead assigned
to or created by the user; manager: self-owned/created, owned/created by a
SALES team member in a managed territory, or the territory of the lead among the
managed territories — and otherwise the attempt reports permission denied
with the detail identifier of the lead itself as the redirect target and leaves the
state unchanged. -/
theorem conversion_permission_gate (st : ConvState) (lookupFails : Bool)
    (user : CustomUser) (leadPk today : Nat) (lead : Lead)
    (hfind : st.leads.find? (fun l => l.pk == leadPk) = some lead) :
    (convertPermission st false user lead = true ↔
      (user.role = "ADMIN" ∨
       (user.role = "SALES" ∧
         (lead.assigned_to = some user.pk ∨
          lead.created_by = some user.pk)) ∨
       (user.role = "MANAGER" ∧
         (lead.assigned_to = some user.pk ∨ lead.created_by = some user.pk ∨
          (∃ u, u ∈ st.users ∧ u.role = "SALES" ∧ u.pk ≠ user.pk ∧
             (∃ t, t ∈ st.territories ∧ t.manager = some user.pk ∧
               u.territory = some t.id) ∧
             (lead.assigned_to = some u.pk ∨ lead.created_by = some u.pk)) ∨
          (∃ t, t ∈ st.territories ∧ t.manager = some user.pk ∧
             lead.territory = some t.id))))) ∧
    (convertPermission st lookupFails user lead = false →
      leadConvert st lookupFails user leadPk today =
        (.forbidden lead.pk, st)) := by
  constructor
  · by_cases hA : user.role = "ADMIN"
    · simp [convertPermission, CustomUser.is_admin_role, hA]
    · by_cases hM : user.role = "MANAGER"
      · rw [convertPermission]
        rw [if_neg (by simp [CustomUser.is_admin_role, hA])]
        rw [if_pos (by simp [CustomUser.is_manager_role, hM])]
        rw [if_neg (by simp)]
        rw [managerBaseQ_iff]
        have hMS : ("MANAGER" = "SALES") = False := by simp
        have hMA : ("MANAGER" = "ADMIN") = False := by simp
        simp only [Lead.asRecord, ConvState.db, hM, hMS, hMA,
          eq_self_iff_true, false_and, true_and, false_or]
      · by_cases hS : user.role = "SALES"
        · rw [convertPermission]
          rw [if_neg (by simp [CustomUser.is_admin_role, hA])]
          rw [if_neg (by simp [CustomUser.is_manager_role, hM])]
          rw [if_pos (by simp [CustomUser.is_sales_role, hS])]
          simp [selfOwnedQ, Lead.asRecord, hA, hM, hS]
        · rw [convertPermission]
          rw [if_neg (by simp [CustomUser.is_admin_role, hA])]
          rw [if_neg (by simp [CustomUser.is_manager_role, hM])]
          rw [if_neg (by simp [CustomUser.is_sales_role, hS])]
          simp [hA, hM, hS]
  · intro hdenied
    rw [leadConvert, hfind]
    simp [hdenied]

/-- Witness for `conversion_permission_gate`, the concrete scenario: the
unrelated sales user B is refused (forbidden, state unchanged) on the
QUALIFIED lead assigned to sales user A in territory North. -/
theorem conversion_permission_gate_witness :
    stW.leads.find? (fun l => l.pk == 50) = some leadQW ∧
    convertPermission stW false salesBW leadQW = false ∧
    leadConvert stW false salesBW 50 1000 = (.forbidden leadQW.pk, stW) :=
  ⟨by decide, by decide,
   (conversion_permission_gate stW false salesBW 50 1000 leadQW
     (by decide)).2 (by decide)⟩

/-! ## Autocomplete endpoints (candidate sets before substring matching) -/

/-- The team computation of `AccountAutocomplete` and `LeadAutocomplete`
(crm_entities/views.py lines 610-612 and 677-679):
`CustomUser.objects.filter(territory__in=managed).exclude(pk=user.pk)` —
unlike the list-view policy, with no `role=SALES` restriction. -/
def teamMembersAnyRole (db : Db) (userPk : Nat) : List CustomUser :=
  db.users.filter (fun u =>
    (managedTerritories db userPk).any (fun t => u.territory == some t.id) &&
    u.pk != userPk)

/-- The manager filter of `AccountAutocomplete` and `LeadAutocomplete`
(crm_entities/views.py lines 613-619 and 680-686): self-owned/created, or
owned/created by an any-role territory member, or direct territory among
the managed territories. -/
def autoAnyRoleQ (db : Db) (user : CustomUser) (r : CrmRecord) : Bool :=
  r.assigned_to == some user.pk || r.created_by == some user.pk ||
  (teamMembersAnyRole db user.pk).any (fun u => r.assigned_to == some u.pk) ||
  (teamMembersAnyRole db user.pk).any (fun u => r.created_by == some u.pk) ||
  territoryInManaged (managedTerritories db user.pk) r.territory

/-- Embeds `AccountAutocomplete.get_queryset` (crm_entities/views.py lines
601-634) up to the `self.q` substring filter: admin passes the base set
through; manager filters by `autoAnyRoleQ`, degrading to self-only on a
lookup exception; sales filters to self-only; other roles get none. -/
def accountAutocompleteCandidates (db : Db) (lookupFails : Bool)
    (user : CustomUser) (qs : List CrmRecord) : List CrmRecord :=
  if user.is_admin_role then qs
  else if user.is_manager_role then
    if lookupFails then qs.filter (selfOwnedQ user)
    else qs.filter (autoAnyRoleQ db user)
  else if user.is_sales_role then qs.filter (selfOwnedQ user)
  else []

/-- Embeds `LeadAutocomplete.get_queryset` (crm_entities/views.py lines 665-704)
up to the `self.q` substring filter: the base set first excludes CONVERTED
and LOST leads, then the same role dispatch as the account autocomplete. -/
def leadAutocompleteCandidates (db : Db) (lookupFails : Bool)
    (user : CustomUser) (leads : List CrmRecord) : List CrmRecord :=
  let qs := leads.filter (fun l =>
    !(l.status == "CONVERTED" || l.status == "LOST"))
  if user.is_admin_role then qs
  else if user.is_manager_role then
    if lookupFails then qs.filter (selfOwnedQ user)
    else qs.filter (autoAnyRoleQ db user)
  else if user.is_sales_role then qs.filter (selfOwnedQ user)
  else []

/-- Embeds `ContactAutocomplete.get_queryset` (crm_entities/views.py lines
637-662) up to the `self.q` substring filter: both branches of the
role check take `Contact.objects.all()` — no role scoping — and the only
narrowing is the account of the forwarded deal (an unknown forwarded deal pk
yields none). -/
def contactAutocompleteCandidates (deals : List Deal)
    (forwardedDeal : Option Nat) (user : CustomUser)
    (qs : List CrmRecord) : List CrmRecord :=
  let base := if user.is_admin_role then qs else qs
  match forwardedDeal with
  | none => base
  | some dpk =>
    match deals.find? (fun d => d.pk == dpk) with
    | none => []
    | some d => base.filter (fun r => r.account == some d.account)

/-- Embeds `DealAutocomplete.get_queryset` (sales_pipeline/views.py lines 370-408)
up to the `self.q` substring filter: admin passes the base set through;
manager filters by self-owned/created, SALES team-member-owned/created, or
account territory among the managed territories, degrading to self-only on
a lookup exception; sales filters to self-only; other roles get none. -/
def dealAutocompleteCandidates (db : Db) (lookupFails : Bool)
    (user : CustomUser) (qs : List CrmRecord) : List CrmRecord :=
  if user.is_admin_role then qs
  else if user.is_manager_role then
    if lookupFails then qs.filter (selfOwnedQ user)
    else qs.filter (fun r =>
      r.assigned_to == some user.pk || r.created_by == some user.pk ||
      (teamMembers db user.pk).any (fun u => r.assigned_to == some u.pk) ||
      (teamMembers db user.pk).any (fun u => r.created_by == some u.pk) ||
      territoryInManaged (managedTerritories db user.pk) r.accountTerritory)
  else if user.is_sales_role then qs.filter (selfOwnedQ user)
  else []

lemma teamMembers_subset_anyRole {db : Db} {mpk : Nat} {u : CustomUser}
    (h : u ∈ teamMembers db mpk) : u ∈ teamMembersAnyRole db mpk := by
  rw [teamMembers, List.mem_filter] at h
  rw [teamMembersAnyRole, List.mem_filter]
  refine ⟨h.1, ?_⟩
  have h2 := h.2
  simp only [Bool.and_eq_true] at h2 ⊢
  exact ⟨h2.1.1, h2.2⟩

lemma managerBaseQ_direct_le_auto {db : Db} {m : CustomUser} {r : CrmRecord}
    (h : managerBaseQ db .direct m r = true) : autoAnyRoleQ db m r = true := by
  simp only [managerBaseQ, autoAnyRoleQ, Bool.or_eq_true,
    List.any_eq_true] at h ⊢
  rcases h with ((((h1 | h2) | ⟨u, hu, ha⟩) | ⟨u, hu, hc⟩) | h5)
  · exact Or.inl (Or.inl (Or.inl (Or.inl h1)))
  · exact Or.inl (Or.inl (Or.inl (Or.inr h2)))
  · exact Or.inl (Or.inl (Or.inr ⟨u, teamMembers_subset_anyRole hu, ha⟩))
  · exact Or.inl (Or.inr ⟨u, teamMembers_subset_anyRole hu, hc⟩)
  · exact Or.inr h5

/-- An admin-role user who sits in territory 7 (an any-role territory
member of `managerW`, but not a SALES team member). -/
def adminTW : CustomUser := { pk := 6, role := "ADMIN", territory := some 7 }

/-- The sample tables extended with `adminTW`. -/
def db2W : Db :=
  { users := [adminW, managerW, salesAW, salesBW, internW, adminTW],
    territories := [northW] }

/-- A record assigned to `adminTW`, with no territory of its own. -/
def recXW : CrmRecord :=
  { pk := 104, assigned_to := some 6, created_by := none,
    territory := none, account := none, accountTerritory := none,
    status := "ACTIVE" }

/-- Counterexample to C8: the candidate set of the Contact autocomplete for a
sales user keeps a contact outside the scoped set of that user, and the Account
candidate set of the Account autocomplete for a manager keeps an account owned by a
non-SALES territory member that the scoping policy excludes. -/
theorem autocomplete_scope_counterexample :
    contactAutocompleteCandidates [] none salesBW [recAW] ≠
      filterQuerysetByRole dbW false .viaAccount salesBW [recAW] ∧
    accountAutocompleteCandidates db2W false managerW [recXW] ≠
      filterQuerysetByRole db2W false .direct managerW [recXW] := by
  constructor
  · decide
  · decide

/-- C8 as amended: the candidate set of the Deal autocomplete equals the set
of the scoping policy for every user; the Contact autocomplete applies no role
scoping (without a forwarded deal its candidate set is the whole base set);
the Account and Lead autocompletes equal the set of the policy for every
non-manager role (the Lead one over the base that also excludes CONVERTED
and LOST); and for every user — managers included — the Account and Lead
autocompletes only widen the set of the policy: each contains every record
the policy admits over its base (the Lead one over the CONVERTED/LOST-
reduced base), the team being taken without the SALES-role restriction. -/
theorem autocomplete_scoping_amended (db : Db) (lookupFails : Bool)
    (user : CustomUser) (qs : List CrmRecord) (deals : List Deal) :
    dealAutocompleteCandidates db lookupFails user qs =
      filterQuerysetByRole db lookupFails .viaAccount user qs ∧
    contactAutocompleteCandidates deals none user qs = qs ∧
    (user.role ≠ "MANAGER" →
      accountAutocompleteCandidates db lookupFails user qs =
        filterQuerysetByRole db lookupFails .direct user qs) ∧
    (user.role ≠ "MANAGER" →
      leadAutocompleteCandidates db lookupFails user qs =
        filterQuerysetByRole db lookupFails .direct user
          (qs.filter (fun l =>
            !(l.status == "CONVERTED" || l.status == "LOST")))) ∧
    (∀ r, r ∈ filterQuerysetByRole db lookupFails .direct user qs →
      r ∈ accountAutocompleteCandidates db lookupFails user qs) ∧
    (∀ r, r ∈ filterQuerysetByRole db lookupFails .direct user
        (qs.filter (fun l =>
          !(l.status == "CONVERTED" || l.status == "LOST"))) →
      r ∈ leadAutocompleteCandidates db lookupFails user qs) := by
  refine ⟨rfl, ?_, ?_, ?_, ?_, ?_⟩
  · simp [contactAutocompleteCandidates]
  · intro hM
    have hMf : user.is_manager_role = false := by
      simp [CustomUser.is_manager_role, hM]
    simp only [accountAutocompleteCandidates, filterQuerysetByRole, hMf,
      Bool.false_eq_true, if_false]
  · intro hM
    have hMf : user.is_manager_role = false := by
      simp [CustomUser.is_manager_role, hM]
    simp only [leadAutocompleteCandidates, filterQuerysetByRole, hMf,
      Bool.false_eq_true, if_false]
  · intro r hr
    rw [filterQuerysetByRole] at hr
    rw [accountAutocompleteCandidates]
    by_cases hA : user.is_admin_role = true
    · rw [if_pos hA] at hr
      rw [if_pos hA]
      exact hr
    · rw [if_neg hA] at hr
      rw [if_neg hA]
      by_cases hMg : user.is_manager_role = true
      · rw [if_pos hMg] at hr
        rw [if_pos hMg]
        by_cases hF : lookupFails = true
        · rw [if_pos hF] at hr
          rw [if_pos hF]
          exact hr
        · rw [if_neg hF] at hr
          rw [if_neg hF]
          exact List.mem_filter.mpr ⟨(List.mem_filter.mp hr).1,
            managerBaseQ_direct_le_auto (List.mem_filter.mp hr).2⟩
      · rw [if_neg hMg] at hr
        rw [if_neg hMg]
        exact hr
  · intro r hr
    rw [filterQuerysetByRole] at hr
    simp only [leadAutocompleteCandidates]
    by_cases hA : user.is_admin_role = true
    · rw [if_pos hA] at hr
      rw [if_pos hA]
      exact hr
    · rw [if_neg hA] at hr
      rw [if_neg hA]
      by_cases hMg : user.is_manager_role = true
      · rw [if_pos hMg] at hr
        rw [if_pos hMg]
        by_cases hF : lookupFails = true
        · rw [if_pos hF] at hr
          rw [if_pos hF]
          exact hr
        · rw [if_neg hF] at hr
          rw [if_neg hF]
          exact List.mem_filter.mpr ⟨(List.mem_filter.mp hr).1,
            managerBaseQ_direct_le_auto (List.mem_filter.mp hr).2⟩
      · rw [if_neg hMg] at hr
        rw [if_neg hMg]
        exact hr

/-- Witness for `autocomplete_scoping_amended` at a concrete sales user and
record set, discharging the non-manager hypotheses and instantiating both
manager-widening containments at a concrete record. -/
theorem autocomplete_scoping_amended_witness :
    (dealAutocompleteCandidates dbW false salesAW [recAW] =
      filterQuerysetByRole dbW false .viaAccount salesAW [recAW]) ∧
    (accountAutocompleteCandidates dbW false salesAW [recAW] =
      filterQuerysetByRole dbW false .direct salesAW [recAW]) ∧
    recAW ∈ accountAutocompleteCandidates dbW false salesAW [recAW] ∧
    recAW ∈ leadAutocompleteCandidates dbW false salesAW [recAW] :=
  ⟨(autocomplete_scoping_amended dbW false salesAW [recAW] []).1,
   (autocomplete_scoping_amended dbW false salesAW [recAW] []).2.2.1
     (by decide),
   (autocomplete_scoping_amended dbW false salesAW [recAW] []).2.2.2.2.1
     recAW (by decide),
   (autocomplete_scoping_amended dbW false salesAW [recAW] []).2.2.2.2.2
     recAW (by decide)⟩

end Crm
